import Mathlib

/-!
Verification of the voxel placement tool (`src/main.rs`).

The development shallowly embeds the core of the program:
integer 3-vectors and 3x3 integer matrices (vek `Vec3<i32>` / `Mat3<i32>`),
the MagicaVoxel rotation decoding inlined in `insert_scene`, the sparse
chunked grid (`VolGrid3d` of 32-cubed chunks, modelled as the list of
inserted chunk keys plus the sequence of cell writes), `render_model`,
`insert_scene`, `SparseScene::new_from`, `PlaceSpec::build_place`, and the
block classification match in `main`.

Rust `i32`/`u32`/`u8` values are modelled as `Int`/`Nat`; the examples and
claims stay far away from the wrap-around range, so overflow is not
modelled.  Fallible or panicking code paths return `Option` (`none` is a
panic / abort of the run).
-/

namespace VoxPlacer

/-- Integer 3-vector, modelling vek `Vec3<i32>` (and `Vec3<u32>` / `Vec3<u8>`
    after the widening casts the source performs). -/
structure V3 where
  x : Int
  y : Int
  z : Int
deriving DecidableEq, Repr

def V3.zero : V3 := ⟨0, 0, 0⟩

def V3.one : V3 := ⟨1, 1, 1⟩

def V3.add (a b : V3) : V3 := ⟨a.x + b.x, a.y + b.y, a.z + b.z⟩

instance : Add V3 := ⟨V3.add⟩

def V3.map (v : V3) (f : Int → Int) : V3 := ⟨f v.x, f v.y, f v.z⟩

def V3.dot (a b : V3) : Int := a.x * b.x + a.y * b.y + a.z * b.z

/-- Componentwise order on positions (used to state box containment). -/
def V3.le (a b : V3) : Prop := a.x ≤ b.x ∧ a.y ≤ b.y ∧ a.z ≤ b.z

instance (a b : V3) : Decidable (V3.le a b) := by
  unfold V3.le
  exact inferInstance

/-- Row-major integer 3x3 matrix, modelling vek `Mat3<i32>`:
    `Mat3::new` lists the entries row by row, and the source builds each
    row as a signed standard basis vector. -/
structure M3 where
  r0 : V3
  r1 : V3
  r2 : V3
deriving DecidableEq, Repr

def M3.id : M3 := ⟨⟨1, 0, 0⟩, ⟨0, 1, 0⟩, ⟨0, 0, 1⟩⟩

def M3.transpose (m : M3) : M3 :=
  ⟨⟨m.r0.x, m.r1.x, m.r2.x⟩, ⟨m.r0.y, m.r1.y, m.r2.y⟩, ⟨m.r0.z, m.r1.z, m.r2.z⟩⟩

/-- Matrix-vector product `rot * v`. -/
def M3.mulVec (m : M3) (v : V3) : V3 := ⟨m.r0.dot v, m.r1.dot v, m.r2.dot v⟩

/-- Matrix product `m * n` (entry i j is row i of `m` dot column j of `n`). -/
def M3.mul (m n : M3) : M3 :=
  ⟨⟨m.r0.dot n.transpose.r0, m.r0.dot n.transpose.r1, m.r0.dot n.transpose.r2⟩,
   ⟨m.r1.dot n.transpose.r0, m.r1.dot n.transpose.r1, m.r1.dot n.transpose.r2⟩,
   ⟨m.r2.dot n.transpose.r0, m.r2.dot n.transpose.r1, m.r2.dot n.transpose.r2⟩⟩

/-- Entrywise map, modelling vek `Mat3::map`. -/
def M3.map (m : M3) (f : Int → Int) : M3 := ⟨m.r0.map f, m.r1.map f, m.r2.map f⟩

def M3.det (m : M3) : Int :=
  m.r0.x * (m.r1.y * m.r2.z - m.r1.z * m.r2.y)
    - m.r0.y * (m.r1.x * m.r2.z - m.r1.z * m.r2.x)
    + m.r0.z * (m.r1.x * m.r2.y - m.r1.y * m.r2.x)

/-- A vector is a signed standard basis vector iff its absolute values sum
    to one (exactly one entry nonzero, and that entry is 1 or -1). -/
def V3.isSignedBasis (v : V3) : Bool :=
  v.x.natAbs + v.y.natAbs + v.z.natAbs == 1

/-- Signed axis permutation: every row and every column is a signed
    standard basis vector. -/
def M3.isSignedPerm (m : M3) : Bool :=
  m.r0.isSignedBasis && m.r1.isSignedBasis && m.r2.isSignedBasis &&
  m.transpose.r0.isSignedBasis && m.transpose.r1.isSignedBasis &&
  m.transpose.r2.isSignedBasis

/-- Outcome of decoding a `_r` rotation attribute (the closure inside
    `insert_scene`).  `fatal` models a Rust index-out-of-bounds panic on
    the `rows` array. -/
inductive RotDecode where
  | ok (m : M3)
  | invalid
  | fatal
deriving DecidableEq, Repr

/-- The `rows` array `[[1, 0, 0], [0, 1, 0], [0, 0, 1]]` of the decoder. -/
def rotRows : List V3 := [⟨1, 0, 0⟩, ⟨0, 1, 0⟩, ⟨0, 0, 1⟩]

/-- Decoder for the 8-bit MagicaVoxel rotation encoding, mirroring the
    closure in `insert_scene`: signs come from bits 4..6, the two 2-bit
    axis selectors from bits 0..1 and 2..3, the third row index is the
    2-bit complement of their bitwise or, and the guard is literally
    `n & 3 != 3 && n >> 2 != 3`.  Guard failure is `invalid` (the source
    returns `None`, "Unknown format"); a row index that falls outside
    `rows` is `fatal` (a Rust slice-index panic).  `n` is the parsed `u8`,
    so `n < 256` at every call site. -/
def decodeRot (n : Nat) : RotDecode :=
  let s0 : Int := if ((n >>> 4) &&& 1) == 0 then 1 else -1
  let s1 : Int := if ((n >>> 5) &&& 1) == 0 then 1 else -1
  let s2 : Int := if ((n >>> 6) &&& 1) == 0 then 1 else -1
  if (n &&& 3) ≠ 3 ∧ (n >>> 2) ≠ 3 then
    match rotRows.get? (n &&& 3), rotRows.get? ((n >>> 2) &&& 3),
        rotRows.get? (((n ||| (n >>> 2)) ^^^ 255) &&& 3) with
    | some a, some b, some c =>
      RotDecode.ok ⟨a.map (fun e => e * s0), b.map (fun e => e * s1), c.map (fun e => e * s2)⟩
    | _, _, _ => RotDecode.fatal
  else
    RotDecode.invalid

/-- RGB color (`Rgb<u8>`); the three channels are bytes in the source. -/
structure Rgb where
  r : Nat
  g : Nat
  b : Nat
deriving DecidableEq, Repr

/-- Cell written for a voxel, mirroring the call
    `Cell::new(color, false, false, voxel.i == 16)` in `render_model`.
    The two middle flags and the fourth ("special", set for the reserved
    palette index 16) live in the external `figure::Cell`; they are kept
    positionally here. -/
structure Cell where
  color : Rgb
  flagA : Bool
  flagB : Bool
  special : Bool
deriving DecidableEq, Repr

def Cell.new (color : Rgb) (a b special : Bool) : Cell := ⟨color, a, b, special⟩

/-- Chunk coordinate of a world position: per-axis floor division by the
    chunk size 32 (`VolGrid3d::pos_key` with `SscSize = (32, 32, 32)`). -/
def posKey (p : V3) : V3 := p.map (fun e => Int.ediv e 32)

/-- Sparse chunked grid (`SparseScene` wrapping `VolGrid3d`): the set of
    inserted chunk keys, in insertion order, plus the sequence of cell
    writes.  A chunk is all-empty when inserted; cell contents other than
    the write log are not needed by the claims. -/
structure Grid where
  keys : List V3
  cells : List (V3 × Cell)
deriving DecidableEq, Repr

def Grid.empty : Grid := ⟨[], []⟩

/-- Idempotent chunk insertion: the source checks `get_key_arc(key).is_none()`
    before `insert(key, Chunk::filled(Cell::empty, ()))`. -/
def Grid.ensure (g : Grid) (k : V3) : Grid :=
  if k ∈ g.keys then g else { g with keys := g.keys ++ [k] }

def Grid.ensureAll (g : Grid) (ks : List V3) : Grid := ks.foldl Grid.ensure g

/-- `VolGrid3d::set`: fails (the source unwraps, i.e. panics) when the
    owning chunk of the written position has not been inserted. -/
def Grid.set (g : Grid) (p : V3) (c : Cell) : Option Grid :=
  if posKey p ∈ g.keys then some { g with cells := g.cells ++ [(p, c)] } else none

/-- Axis-aligned box with integer corners (vek `Aabb<i32>`; its
    `contains_point` is inclusive on both corners). -/
structure Aabb3 where
  min : V3
  max : V3
deriving DecidableEq, Repr

/-- Box containment, point-set wise with vek inclusive corners. -/
def Aabb3.containsBox (outer inner : Aabb3) : Prop :=
  V3.le outer.min inner.min ∧ V3.le inner.max outer.max

instance (outer inner : Aabb3) : Decidable (Aabb3.containsBox outer inner) := by
  unfold Aabb3.containsBox
  exact inferInstance

/-- One voxel of a dot_vox model: local coordinates (`u8` in the source)
    and the palette index `i`. -/
structure Voxel where
  x : Int
  y : Int
  z : Int
  i : Nat
deriving DecidableEq, Repr

/-- A dot_vox model: declared size and voxel list. -/
structure Model where
  size : V3
  voxels : List Voxel
deriving DecidableEq, Repr

/-- Rotated extent `size = rot.map(|e| e.abs() as u32) * model.size`. -/
def rmSize (rot : M3) (msize : V3) : V3 :=
  (rot.map (fun e => (e.natAbs : Int))).mulVec msize

/-- Min corner position:
    `trans.map2(size, ..).map2(rot * one, |(s, m), f| m - (s + f.min(0) * -1) / 2)`.
    Rust `/` on `i32` truncates toward zero, hence `Int.tdiv` (the numerator
    is nonnegative whenever the size is, so this agrees with floor). -/
def rmPos (rot : M3) (trans msize : V3) : V3 :=
  let size := rmSize rot msize
  let f := rot.mulVec V3.one
  ⟨trans.x - Int.tdiv (size.x + min f.x 0 * (-1)) 2,
   trans.y - Int.tdiv (size.y + min f.y 0 * (-1)) 2,
   trans.z - Int.tdiv (size.z + min f.z 0 * (-1)) 2⟩

/-- Re-anchoring offset
    `(rot * model.size).map(|e| if e > 0 { 0 } else { -e - 1 })`. -/
def rmOffset (rot : M3) (msize : V3) : V3 :=
  (rot.mulVec msize).map (fun e => if e > 0 then 0 else -e - 1)

/-- Chunk-key range inserted by `render_model` before any write. -/
def rmMinKey (rot : M3) (trans msize : V3) : V3 := posKey (rmPos rot trans msize)

def rmMaxKey (rot : M3) (trans msize : V3) : V3 :=
  posKey (rmPos rot trans msize + (rmSize rot msize).map (fun e => e - 1))

/-- World position a voxel is written to:
    `rot * (voxel.x, voxel.y, voxel.z) + offset + pos`. -/
def voxelPos (rot : M3) (trans msize : V3) (v : Voxel) : V3 :=
  rot.mulVec ⟨v.x, v.y, v.z⟩ + rmOffset rot msize + rmPos rot trans msize

def intRange (lo hi : Int) : List Int :=
  (List.range (hi + 1 - lo).toNat).map (fun i => lo + Int.ofNat i)

/-- All chunk keys of the triple loop `min_key.{x,y,z}..=max_key.{x,y,z}`. -/
def keysInBox (lo hi : V3) : List V3 :=
  (intRange lo.x hi.x).flatMap (fun x =>
    (intRange lo.y hi.y).flatMap (fun y =>
      (intRange lo.z hi.z).map (fun z => ⟨x, y, z⟩)))

/-- The per-voxel write loop of `render_model`: a voxel whose palette
    index is beyond the palette is skipped; otherwise the cell is written
    with `set(..).unwrap()` (`none` models the panic). -/
def writeVoxels (palette : List Rgb) (rot : M3) (off pos : V3) :
    List Voxel → Grid → Option Grid
  | [], g => some g
  | v :: rest, g =>
    match palette.get? v.i with
    | some color =>
      match g.set (rot.mulVec ⟨v.x, v.y, v.z⟩ + off + pos)
          (Cell.new color false false (v.i == 16)) with
      | some g1 => writeVoxels palette rot off pos rest g1
      | none => none
    | none => writeVoxels palette rot off pos rest g

/-- `render_model`: push the box `[pos, pos + size]`, insert every chunk
    between `pos_key(pos)` and `pos_key(pos + size - 1)`, then write all
    voxels.  `none` is a panicked run. -/
def renderModel (palette : List Rgb) (model : Model) (g : Grid) (aabbs : List Aabb3)
    (rot : M3) (trans : V3) : Option (Grid × List Aabb3) :=
  (writeVoxels palette rot (rmOffset rot model.size) (rmPos rot trans model.size) model.voxels
      (g.ensureAll (keysInBox (rmMinKey rot trans model.size)
        (rmMaxKey rot trans model.size)))).map
    (fun g2 => (g2, aabbs ++ [⟨rmPos rot trans model.size,
      rmPos rot trans model.size + rmSize rot model.size⟩]))

/-- One animation frame of a Transform node, holding the raw `_t` and `_r`
    attribute strings when present. -/
structure Frame where
  t : Option String
  r : Option String
deriving DecidableEq, Repr

/-- dot_vox scene node; Shape carries the referenced model ids. -/
inductive SceneNode where
  | transform (frames : List Frame) (child : Nat)
  | group (children : List Nat)
  | shape (models : List Nat)
deriving DecidableEq, Repr

/-- The decoded vox file as the core consumes it.  The palette is already
    the `Vec<Rgb<u8>>` the source builds from the file palette (dropping
    alpha); that byte conversion belongs to the loader collaborator. -/
structure DotVoxData where
  palette : List Rgb
  models : List Model
  scene : List SceneNode
deriving DecidableEq, Repr

/-- Parse of the `_t` attribute: split on single spaces, parse each piece
    as a signed integer, require at least three parsed pieces (extra
    pieces are ignored), mirroring `t.split(' ')` with `elements.next()??`.
    The i32 range check and a leading plus sign of Rust `parse::<i32>` are
    not modelled. -/
def parseVec (s : String) : Option V3 :=
  match (s.splitOn " ").map String.toInt? with
  | some a :: some b :: some c :: _ => some ⟨a, b, c⟩
  | _ => none

/-- Parse of the `_r` attribute as `u8` (digits only, value below 256). -/
def parseU8 (s : String) : Option Nat :=
  match s.toNat? with
  | some n => if n < 256 then some n else none
  | none => none

/-- Frame translation: `frame.get("_t").and_then(parse).unwrap_or_default()`. -/
def frameTrans (f : Frame) : V3 := (f.t.bind parseVec).getD V3.zero

/-- Frame rotation: `frame.get("_r").and_then(decode).unwrap_or(identity)`;
    `none` models the decoder hitting the out-of-bounds row index. -/
def frameRotM (f : Frame) : Option M3 :=
  match f.r with
  | none => some M3.id
  | some s =>
    match parseU8 s with
    | none => some M3.id
    | some n =>
      match decodeRot n with
      | RotDecode.ok m => some m
      | RotDecode.invalid => some M3.id
      | RotDecode.fatal => none

/-- Local translation of a Transform node: the first frame only; no frame
    leaves the state untouched, which composing with zero also expresses. -/
def localTrans (frames : List Frame) : V3 :=
  match frames.head? with
  | none => V3.zero
  | some f => frameTrans f

/-- Local rotation of a Transform node, `none` on a decoder panic. -/
def localRot (frames : List Frame) : Option M3 :=
  match frames.head? with
  | none => some M3.id
  | some f => frameRotM f

/-- Sequential traversal of a list of children, threading grid and boxes
    and propagating a panic; the recursive step is passed in. -/
def foldChildren (f : Nat → Grid → List Aabb3 → Option (Grid × List Aabb3)) :
    List Nat → Grid → List Aabb3 → Option (Grid × List Aabb3)
  | [], g, aabbs => some (g, aabbs)
  | c :: rest, g, aabbs =>
    match f c g aabbs with
    | none => none
    | some (g1, aabbs1) => foldChildren f rest g1 aabbs1

/-- The model loop of a Shape node: a `model_id` missing from the model
    table is silently skipped. -/
def renderModels (palette : List Rgb) (data : DotVoxData) (rot : M3) (trans : V3) :
    List Nat → Grid → List Aabb3 → Option (Grid × List Aabb3)
  | [], g, aabbs => some (g, aabbs)
  | mid :: rest, g, aabbs =>
    match data.models.get? mid with
    | none => renderModels palette data rot trans rest g aabbs
    | some m =>
      match renderModel palette m g aabbs rot trans with
      | none => none
      | some (g1, aabbs1) => renderModels palette data rot trans rest g1 aabbs1

/-- `insert_scene`: recursive scene traversal.  A scene index with no
    entry is `scene.get(..).unwrap()`, a panic (`none`).  The source
    recurses without bound (a cyclic node table would overflow the stack);
    the embedding spends one unit of fuel per level, so any acyclic scene
    is fully traversed given fuel beyond its depth, and fuel exhaustion is
    also `none`. -/
def insertScene : Nat → DotVoxData → List Rgb → Nat → M3 → V3 → Grid → List Aabb3 →
    Option (Grid × List Aabb3)
  | 0, _, _, _, _, _, _, _ => none
  | fuel + 1, data, palette, idx, rot, tr, g, aabbs =>
    match data.scene.get? idx with
    | none => none
    | some (SceneNode.transform frames child) =>
      match frames.head? with
      | none => insertScene fuel data palette child rot tr g aabbs
      | some f =>
        match frameRotM f with
        | none => none
        | some r =>
          insertScene fuel data palette child (rot.mul r)
            (tr + rot.mulVec (frameTrans f)) g aabbs
    | some (SceneNode.group children) =>
      foldChildren (fun c g1 aabbs1 => insertScene fuel data palette c rot tr g1 aabbs1)
        children g aabbs
    | some (SceneNode.shape ms) => renderModels palette data rot tr ms g aabbs

/-- `SparseScene::new_from`: traverse from root node 0 with identity
    rotation and the requested offset.  Any acyclic scene has traversal
    depth at most its node count, so this fuel is never the bound that
    fires on the scenes the program accepts. -/
def newFrom (data : DotVoxData) (offset : V3) : Option (Grid × List Aabb3) :=
  insertScene (data.scene.length + 1) data data.palette 0 M3.id offset Grid.empty []

/-- One `(model_name, offset)` piece of the placement spec. -/
structure VoxSpec where
  name : String
  offset : V3
deriving DecidableEq, Repr

structure PlaceSpec where
  pieces : List VoxSpec
deriving DecidableEq, Repr

/-- `PlaceSpec::build_place`.  `load` stands for `graceful_load_vox`, which
    always yields some vox data (falling back to a placeholder asset on a
    missing name).  The source matches on `pieces.get(0)` only; with no
    pieces it loads the deliberately nonexistent asset name (spelled
    "asset that doesn't exist" in the source; the contraction is avoided
    here). -/
def buildPlace (load : String → DotVoxData) (spec : PlaceSpec) :
    Option ((Grid × List Aabb3) × V3) :=
  (match spec.pieces.get? 0 with
   | some vs => newFrom (load vs.name) vs.offset
   | none => newFrom (load "asset that does not exist") V3.zero).map
    (fun r => (r, V3.zero))

/-- Output block values, mirroring the `Block` constructions in `main`:
    `Block::new(kind, color)`, `Block::air(sprite)` and
    `Block::water(sprite)`. -/
inductive BlockKind where
  | Water
  | Lava
  | GlowingRock
  | Misc
deriving DecidableEq, Repr

inductive SpriteKind where
  | Empty
  | StreetLamp
  | Liana
  | CookingPot
  | JungleRedGrass
  | JungleFern
  | DungeonChest4
  | FireBowlGround
deriving DecidableEq, Repr

inductive Block where
  | solid (kind : BlockKind) (color : Rgb)
  | air (sprite : SpriteKind)
  | water (sprite : SpriteKind)
deriving DecidableEq, Repr

/-- The colors with a dedicated match arm in `main` (the replacement
    table). -/
def tableColors : List Rgb :=
  [⟨4, 119, 191⟩, ⟨170, 56, 56⟩, ⟨243, 255, 113⟩, ⟨0, 200, 80⟩,
   ⟨191, 255, 0⟩, ⟨63, 96, 12⟩, ⟨144, 31, 31⟩, ⟨194, 231, 147⟩]

/-- The block classification `match` in `main` for an occupied cell.
    `draw` is the value of the one random draw
    `rand::thread_rng().gen_bool(0.5)` (the implicit thread-local RNG);
    making it a parameter exposes exactly what that global read feeds. -/
def classifyCell (color : Rgb) (hollow glowy shiny : Bool) (draw : Bool) : Block :=
  if color = ⟨4, 119, 191⟩ then Block.solid BlockKind.Water ⟨0, 0, 0⟩
  else if color = ⟨170, 56, 56⟩ then Block.solid BlockKind.Lava ⟨255, 65, 0⟩
  else if color = ⟨243, 255, 113⟩ then Block.air SpriteKind.StreetLamp
  else if color = ⟨0, 200, 80⟩ then Block.air SpriteKind.Liana
  else if color = ⟨191, 255, 0⟩ then Block.air SpriteKind.CookingPot
  else if color = ⟨63, 96, 12⟩ then
    (if draw then Block.air SpriteKind.JungleRedGrass else Block.air SpriteKind.JungleFern)
  else if color = ⟨144, 31, 31⟩ then Block.air SpriteKind.DungeonChest4
  else if color = ⟨194, 231, 147⟩ then Block.air SpriteKind.FireBowlGround
  else if hollow then Block.air SpriteKind.Empty
  else if glowy then Block.solid BlockKind.GlowingRock color
  else if shiny then Block.water SpriteKind.Empty
  else Block.solid BlockKind.Misc color

/-- Voxel coordinates within the declared model size, componentwise. -/
def inBoundsVoxel (v : Voxel) (msize : V3) : Prop :=
  0 ≤ v.x ∧ v.x < msize.x ∧ 0 ≤ v.y ∧ v.y < msize.y ∧ 0 ≤ v.z ∧ v.z < msize.z

instance (v : Voxel) (msize : V3) : Decidable (inBoundsVoxel v msize) := by
  unfold inBoundsVoxel
  exact inferInstance

/-- Offset applied on the axis read by row `r` (the component of
    `rmOffset` that this row produces). -/
def rowOff (r msize : V3) : Int :=
  if V3.dot r msize > 0 then 0 else -V3.dot r msize - 1

/-- Decode outcome check used to state that an accepted encoding is a
    proper signed axis permutation (orthogonal, determinant of absolute
    value one). -/
def goodPerm (d : RotDecode) : Bool :=
  match d with
  | RotDecode.ok m =>
    m.isSignedPerm && (m.det == 1 || m.det == -1) && (m.mul m.transpose == M3.id)
  | RotDecode.invalid => false
  | RotDecode.fatal => false

/-- Example vox data: one 2x2x2 model, no voxels, a single Shape root. -/
def dataA : DotVoxData := ⟨[], [⟨⟨2, 2, 2⟩, []⟩], [SceneNode.shape [0]]⟩

/-- Example vox data: one 40-cubed model, no voxels, a single Shape root. -/
def dataB : DotVoxData := ⟨[], [⟨⟨40, 40, 40⟩, []⟩], [SceneNode.shape [0]]⟩

/-- Example vox data whose root Shape renders a 10-cubed model and then a
    4-cubed model at the same translation: the second box lands strictly
    inside the first. -/
def dataC : DotVoxData :=
  ⟨[], [⟨⟨10, 10, 10⟩, []⟩, ⟨⟨4, 4, 4⟩, []⟩], [SceneNode.shape [0, 1]]⟩

/-- Example loader resolving the names of the two-piece placement spec. -/
def loadEx (s : String) : DotVoxData := if s = "a" then dataA else dataB

/-- The grid produced by rendering `dataA` at the origin: the eight chunks
    overlapping its box, no cell writes. -/
def gridA : Grid :=
  ⟨[⟨-1, -1, -1⟩, ⟨-1, -1, 0⟩, ⟨-1, 0, -1⟩, ⟨-1, 0, 0⟩,
    ⟨0, -1, -1⟩, ⟨0, -1, 0⟩, ⟨0, 0, -1⟩, ⟨0, 0, 0⟩], []⟩

/-- A 2x2x2 model with a single voxel at the local origin, palette index 0. -/
def modelA : Model := ⟨⟨2, 2, 2⟩, [⟨0, 0, 0, 0⟩]⟩

/-- One-color palette for `modelA`. -/
def palA : List Rgb := [⟨4, 119, 191⟩]

/-- Scene with one Transform node whose single frame carries no
    attributes (both default, to zero translation and identity rotation)
    and whose child is an empty Shape. -/
def dataT : DotVoxData :=
  ⟨[], [], [SceneNode.transform [⟨none, none⟩] 1, SceneNode.shape []]⟩

/-! Helper lemmas (shared; none of these is a claim theorem). -/

theorem V3.add_x (a b : V3) : (a + b).x = a.x + b.x := rfl

theorem V3.add_y (a b : V3) : (a + b).y = a.y + b.y := rfl

theorem V3.add_z (a b : V3) : (a + b).z = a.z + b.z := rfl

theorem V3.add_zero_right (a : V3) : a + V3.zero = a := by
  obtain ⟨x, y, z⟩ := a
  show V3.add ⟨x, y, z⟩ V3.zero = ⟨x, y, z⟩
  simp [V3.add, V3.zero]

theorem M3.mulVec_zero (m : M3) : m.mulVec V3.zero = V3.zero := by
  obtain ⟨⟨a, b, c⟩, ⟨d, e, f⟩, ⟨p, q, s⟩⟩ := m
  simp [M3.mulVec, V3.dot, V3.zero]

theorem M3.mul_id (m : M3) : m.mul M3.id = m := by
  obtain ⟨⟨a, b, c⟩, ⟨d, e, f⟩, ⟨p, q, s⟩⟩ := m
  simp [M3.mul, M3.transpose, M3.id, V3.dot, M3.mk.injEq, V3.mk.injEq]

set_option maxHeartbeats 1000000 in
/-- A signed standard basis vector is one of the six axis vectors. -/
theorem signedBasis_cases (v : V3) (h : v.isSignedBasis = true) :
    v = ⟨1, 0, 0⟩ ∨ v = ⟨-1, 0, 0⟩ ∨ v = ⟨0, 1, 0⟩ ∨ v = ⟨0, -1, 0⟩ ∨
      v = ⟨0, 0, 1⟩ ∨ v = ⟨0, 0, -1⟩ := by
  obtain ⟨x, y, z⟩ := v
  simp only [V3.isSignedBasis, beq_iff_eq] at h
  simp only [V3.mk.injEq]
  omega

/-- Per-axis placement bound: for a signed-basis row, the rotated voxel
    coordinate plus the re-anchoring offset lies within the rotated
    extent of that axis. -/
theorem row_bound (r msize : V3) (vx vy vz : Int) (hr : r.isSignedBasis = true)
    (hx : 0 ≤ vx) (hx2 : vx < msize.x) (hy : 0 ≤ vy) (hy2 : vy < msize.y)
    (hz : 0 ≤ vz) (hz2 : vz < msize.z) :
    0 ≤ V3.dot r ⟨vx, vy, vz⟩ + rowOff r msize ∧
    V3.dot r ⟨vx, vy, vz⟩ + rowOff r msize ≤
      V3.dot (V3.map r (fun e => (e.natAbs : Int))) msize - 1 := by
  rcases signedBasis_cases r hr with h | h | h | h | h | h <;>
    subst h <;>
    simp only [V3.dot, V3.map, rowOff] <;>
    norm_num <;>
    split <;>
    omega

theorem M3.mulVec_x (m : M3) (v : V3) : (m.mulVec v).x = V3.dot m.r0 v := rfl

theorem M3.mulVec_y (m : M3) (v : V3) : (m.mulVec v).y = V3.dot m.r1 v := rfl

theorem M3.mulVec_z (m : M3) (v : V3) : (m.mulVec v).z = V3.dot m.r2 v := rfl

theorem V3.map_x (v : V3) (f : Int → Int) : (v.map f).x = f v.x := rfl

theorem V3.map_y (v : V3) (f : Int → Int) : (v.map f).y = f v.y := rfl

theorem V3.map_z (v : V3) (f : Int → Int) : (v.map f).z = f v.z := rfl

/-- Componentwise version: every in-bounds voxel of a signed-permutation
    placement lands between the min corner and `pos + size - 1`. -/
theorem voxel_world_bound (rot : M3) (trans msize : V3) (v : Voxel)
    (hrot : rot.isSignedPerm = true) (hv : inBoundsVoxel v msize) :
    V3.le (rmPos rot trans msize) (voxelPos rot trans msize v) ∧
      V3.le (voxelPos rot trans msize v)
        (rmPos rot trans msize + (rmSize rot msize).map (fun e => e - 1)) := by
  obtain ⟨hx, hx2, hy, hy2, hz, hz2⟩ := hv
  simp only [M3.isSignedPerm, Bool.and_eq_true] at hrot
  obtain ⟨⟨⟨⟨⟨h0, h1⟩, h2⟩, _⟩, _⟩, _⟩ := hrot
  have b0 := row_bound rot.r0 msize v.x v.y v.z h0 hx hx2 hy hy2 hz hz2
  have b1 := row_bound rot.r1 msize v.x v.y v.z h1 hx hx2 hy hy2 hz hz2
  have b2 := row_bound rot.r2 msize v.x v.y v.z h2 hx hx2 hy hy2 hz hz2
  have e0 : (rmOffset rot msize).x = rowOff rot.r0 msize := rfl
  have e1 : (rmOffset rot msize).y = rowOff rot.r1 msize := rfl
  have e2 : (rmOffset rot msize).z = rowOff rot.r2 msize := rfl
  have s0 : (rmSize rot msize).x = V3.dot (V3.map rot.r0 (fun e => (e.natAbs : Int))) msize := rfl
  have s1 : (rmSize rot msize).y = V3.dot (V3.map rot.r1 (fun e => (e.natAbs : Int))) msize := rfl
  have s2 : (rmSize rot msize).z = V3.dot (V3.map rot.r2 (fun e => (e.natAbs : Int))) msize := rfl
  rw [← e0, ← s0] at b0
  rw [← e1, ← s1] at b1
  rw [← e2, ← s2] at b2
  constructor
  · refine ⟨?_, ?_, ?_⟩ <;>
      simp only [voxelPos, V3.add_x, V3.add_y, V3.add_z,
        M3.mulVec_x, M3.mulVec_y, M3.mulVec_z] <;>
      omega
  · refine ⟨?_, ?_, ?_⟩ <;>
      simp only [voxelPos, V3.add_x, V3.add_y, V3.add_z, V3.map_x, V3.map_y, V3.map_z,
        M3.mulVec_x, M3.mulVec_y, M3.mulVec_z] <;>
      omega

theorem posKey_mono (a b : V3) (h : V3.le a b) : V3.le (posKey a) (posKey b) := by
  obtain ⟨h1, h2, h3⟩ := h
  simp only [V3.le, posKey, V3.map]
  exact ⟨Int.ediv_le_ediv (by norm_num) h1, Int.ediv_le_ediv (by norm_num) h2,
    Int.ediv_le_ediv (by norm_num) h3⟩

theorem mem_intRange (lo hi t : Int) (h1 : lo ≤ t) (h2 : t ≤ hi) : t ∈ intRange lo hi := by
  have ht : t = lo + Int.ofNat (t - lo).toNat := by
    simp only [Int.ofNat_eq_coe]
    omega
  have hm : (t - lo).toNat ∈ List.range (hi + 1 - lo).toNat := by
    rw [List.mem_range]
    omega
  unfold intRange
  rw [ht]
  exact List.mem_map_of_mem (fun i : Nat => lo + Int.ofNat i) hm

theorem mem_keysInBox (lo hi k : V3) (h1 : V3.le lo k) (h2 : V3.le k hi) :
    k ∈ keysInBox lo hi := by
  obtain ⟨ha, hb, hc⟩ := h1
  obtain ⟨hd, he, hf⟩ := h2
  unfold keysInBox
  rw [List.mem_flatMap]
  refine ⟨k.x, mem_intRange _ _ _ ha hd, ?_⟩
  rw [List.mem_flatMap]
  refine ⟨k.y, mem_intRange _ _ _ hb he, ?_⟩
  rw [List.mem_map]
  exact ⟨k.z, mem_intRange _ _ _ hc hf, rfl⟩

theorem Grid.mem_ensure_self (g : Grid) (k : V3) : k ∈ (g.ensure k).keys := by
  unfold Grid.ensure
  split
  · assumption
  · simp

theorem Grid.mem_ensure_of_mem (g : Grid) (k a : V3) (h : a ∈ g.keys) :
    a ∈ (g.ensure k).keys := by
  unfold Grid.ensure
  split
  · exact h
  · simp [h]

theorem Grid.mem_ensureAll_of_mem (g : Grid) (ks : List V3) (a : V3) (h : a ∈ g.keys) :
    a ∈ (g.ensureAll ks).keys := by
  induction ks generalizing g with
  | nil => exact h
  | cons k rest ih => exact ih (g.ensure k) (Grid.mem_ensure_of_mem g k a h)

theorem Grid.mem_ensureAll (g : Grid) (ks : List V3) (a : V3) (h : a ∈ ks) :
    a ∈ (g.ensureAll ks).keys := by
  induction ks generalizing g with
  | nil => cases h
  | cons k rest ih =>
    show a ∈ ((g.ensure k).ensureAll rest).keys
    rcases List.mem_cons.mp h with heq | h2
    · subst heq
      exact Grid.mem_ensureAll_of_mem (g.ensure a) rest a (Grid.mem_ensure_self g a)
    · exact ih (g.ensure k) h2

theorem writeVoxels_isSome (palette : List Rgb) (rot : M3) (off pos : V3)
    (vs : List Voxel) (g : Grid)
    (h : ∀ v ∈ vs, posKey (rot.mulVec ⟨v.x, v.y, v.z⟩ + off + pos) ∈ g.keys) :
    (writeVoxels palette rot off pos vs g).isSome = true := by
  induction vs generalizing g with
  | nil => rfl
  | cons v rest ih =>
    have hv := h v (List.mem_cons_self v rest)
    have hrest := fun w hw => h w (List.mem_cons_of_mem v hw)
    rw [writeVoxels]
    cases hpal : palette.get? v.i with
    | none => exact ih g hrest
    | some color =>
      show (match g.set (rot.mulVec ⟨v.x, v.y, v.z⟩ + off + pos)
            (Cell.new color false false (v.i == 16)) with
        | some g1 => writeVoxels palette rot off pos rest g1
        | none => none).isSome = true
      have hset : g.set (rot.mulVec ⟨v.x, v.y, v.z⟩ + off + pos)
          (Cell.new color false false (v.i == 16)) =
          some { g with cells := g.cells ++
            [(rot.mulVec ⟨v.x, v.y, v.z⟩ + off + pos, Cell.new color false false (v.i == 16))] } := by
        unfold Grid.set
        rw [if_pos hv]
      rw [hset]
      exact ih _ hrest

/-- The aabb list returned by a successful `renderModel` run is the input
    list with the (possibly redundant) box `[pos, pos + size]` appended. -/
theorem renderModel_aabbs (palette : List Rgb) (model : Model) (g : Grid)
    (aabbs : List Aabb3) (rot : M3) (trans : V3) (g1 : Grid) (aabbs1 : List Aabb3)
    (h : renderModel palette model g aabbs rot trans = some (g1, aabbs1)) :
    aabbs1 = aabbs ++ [⟨rmPos rot trans model.size,
      rmPos rot trans model.size + rmSize rot model.size⟩] := by
  unfold renderModel at h
  cases hw : writeVoxels palette rot (rmOffset rot model.size) (rmPos rot trans model.size)
      model.voxels (g.ensureAll (keysInBox (rmMinKey rot trans model.size)
        (rmMaxKey rot trans model.size))) with
  | none =>
    rw [hw] at h
    cases h
  | some g2 =>
    rw [hw] at h
    have h2 : (some (g2, aabbs ++ [⟨rmPos rot trans model.size,
        rmPos rot trans model.size + rmSize rot model.size⟩]) :
        Option (Grid × List Aabb3)) = some (g1, aabbs1) := h
    simp only [Option.some.injEq, Prod.mk.injEq] at h2
    exact h2.2.symm

/-! Claim theorems. -/

/-- C4 (code bug): the claim says an encoding whose two 2-bit axis
    selectors coincide (or both equal 3) is signalled invalid, replaced by
    the identity, and never yields a singular matrix or an abort.  The
    guard `n & 3 != 3 && n >> 2 != 3` accepts coinciding selectors:
    encoding 5 (both selectors 1) decodes to a singular matrix whose first
    two rows both read the y axis, and encoding 0 (both selectors 0) drives
    the third row index to 3, an out-of-bounds access into `rows` that
    aborts the program. -/
theorem decodeRot_coinciding_selectors_bug :
    ((5 : Nat) &&& 3) = ((5 >>> 2) &&& 3) ∧
    decodeRot 5 = RotDecode.ok ⟨⟨0, 1, 0⟩, ⟨0, 1, 0⟩, ⟨0, 0, 1⟩⟩ ∧
    M3.det ⟨⟨0, 1, 0⟩, ⟨0, 1, 0⟩, ⟨0, 0, 1⟩⟩ = 0 ∧
    ((0 : Nat) &&& 3) = ((0 >>> 2) &&& 3) ∧
    decodeRot 0 = RotDecode.fatal := by decide

/-- C7 counterexample: encoding 10, whose axis selectors coincide, is
    accepted by the decoder (the guard passes and a matrix is returned),
    yet the decoded matrix is singular and not a signed axis
    permutation — refuting the claim for every accepted encoding. -/
theorem decodeRot_accepts_singular :
    decodeRot 10 = RotDecode.ok ⟨⟨0, 0, 1⟩, ⟨0, 0, 1⟩, ⟨0, 1, 0⟩⟩ ∧
    M3.det ⟨⟨0, 0, 1⟩, ⟨0, 0, 1⟩, ⟨0, 1, 0⟩⟩ = 0 ∧
    M3.isSignedPerm ⟨⟨0, 0, 1⟩, ⟨0, 0, 1⟩, ⟨0, 1, 0⟩⟩ = false := by decide

set_option maxHeartbeats 4000000 in
set_option maxRecDepth 100000 in
/-- C7 (corrected): for every 8-bit rotation encoding whose two 2-bit axis
    selectors are distinct and both below the reserved value 3, the
    decoder accepts the encoding and the decoded matrix is a signed axis
    permutation: every row and column has exactly one nonzero entry equal
    to 1 or -1, the determinant is 1 or -1, and the matrix times its
    transpose is the identity. -/
theorem decodeRot_distinct_selectors_good (n : Nat) (hn : n < 256)
    (hne : (n &&& 3) ≠ ((n >>> 2) &&& 3))
    (h1 : (n &&& 3) < 3) (h2 : ((n >>> 2) &&& 3) < 3) :
    goodPerm (decodeRot n) = true := by
  revert hne h1 h2
  revert hn
  revert n
  decide

theorem decodeRot_distinct_selectors_good_witness :
    goodPerm (decodeRot 4) = true :=
  decodeRot_distinct_selectors_good 4 (by decide) (by decide) (by decide) (by decide)

/-- C8 counterexample: the block produced for the occupied cell of color
    (63, 96, 12) changes with the value of the thread-local RNG draw, so
    classification does read implicit process-global random state (the
    claim that draws come only from an explicitly threaded source fails:
    no random source or seed is threaded anywhere in `main`). -/
theorem classify_depends_on_global_draw :
    classifyCell ⟨63, 96, 12⟩ false false false true ≠
      classifyCell ⟨63, 96, 12⟩ false false false false := by decide

/-- C8 (corrected): classification is a pure function of the cell and the
    single thread-local draw, and the draw influences only color
    (63, 96, 12); for every other color, classifying the same cell twice
    yields the same block whatever the two draws were. -/
theorem classify_draw_independent_except_weighted (c : Rgb)
    (hollow glowy shiny d1 d2 : Bool) (hc : c ≠ ⟨63, 96, 12⟩) :
    classifyCell c hollow glowy shiny d1 = classifyCell c hollow glowy shiny d2 := by
  unfold classifyCell
  rw [if_neg hc, if_neg hc]

theorem classify_draw_independent_except_weighted_witness :
    classifyCell ⟨7, 7, 7⟩ false false false true =
      classifyCell ⟨7, 7, 7⟩ false false false false :=
  classify_draw_independent_except_weighted ⟨7, 7, 7⟩ false false false true false (by decide)

/-- C9 (confirmed): an exact color match in the table takes precedence
    over all flags — each of the eight table colors produces its table
    block for every flag combination, the flags never being consulted
    (in particular (4, 119, 191) always yields the water block, and
    (63, 96, 12) depends only on the draw) — and a cell whose color
    matches no table entry falls back to the flag priority hollow, then
    glowy, then shiny, then the solid misc block. -/
theorem classify_match_priority (hollow glowy shiny draw : Bool) (c : Rgb)
    (hc : c ∉ tableColors) :
    classifyCell ⟨4, 119, 191⟩ hollow glowy shiny draw =
      Block.solid BlockKind.Water ⟨0, 0, 0⟩ ∧
    classifyCell ⟨170, 56, 56⟩ hollow glowy shiny draw =
      Block.solid BlockKind.Lava ⟨255, 65, 0⟩ ∧
    classifyCell ⟨243, 255, 113⟩ hollow glowy shiny draw =
      Block.air SpriteKind.StreetLamp ∧
    classifyCell ⟨0, 200, 80⟩ hollow glowy shiny draw =
      Block.air SpriteKind.Liana ∧
    classifyCell ⟨191, 255, 0⟩ hollow glowy shiny draw =
      Block.air SpriteKind.CookingPot ∧
    classifyCell ⟨63, 96, 12⟩ hollow glowy shiny draw =
      (if draw then Block.air SpriteKind.JungleRedGrass
       else Block.air SpriteKind.JungleFern) ∧
    classifyCell ⟨144, 31, 31⟩ hollow glowy shiny draw =
      Block.air SpriteKind.DungeonChest4 ∧
    classifyCell ⟨194, 231, 147⟩ hollow glowy shiny draw =
      Block.air SpriteKind.FireBowlGround ∧
    classifyCell c hollow glowy shiny draw =
      (if hollow then Block.air SpriteKind.Empty
       else if glowy then Block.solid BlockKind.GlowingRock c
       else if shiny then Block.water SpriteKind.Empty
       else Block.solid BlockKind.Misc c) := by
  refine ⟨rfl, rfl, rfl, rfl, rfl, rfl, rfl, rfl, ?_⟩
  simp only [tableColors, List.mem_cons, List.not_mem_nil, or_false, not_or] at hc
  obtain ⟨h1, h2, h3, h4, h5, h6, h7, h8⟩ := hc
  unfold classifyCell
  simp only [if_neg h1, if_neg h2, if_neg h3, if_neg h4, if_neg h5,
    if_neg h6, if_neg h7, if_neg h8]

theorem classify_match_priority_witness :
    (classifyCell ⟨4, 119, 191⟩ true true true true =
      Block.solid BlockKind.Water ⟨0, 0, 0⟩ ∧
    classifyCell ⟨170, 56, 56⟩ true true true true =
      Block.solid BlockKind.Lava ⟨255, 65, 0⟩ ∧
    classifyCell ⟨243, 255, 113⟩ true true true true =
      Block.air SpriteKind.StreetLamp ∧
    classifyCell ⟨0, 200, 80⟩ true true true true =
      Block.air SpriteKind.Liana ∧
    classifyCell ⟨191, 255, 0⟩ true true true true =
      Block.air SpriteKind.CookingPot ∧
    classifyCell ⟨63, 96, 12⟩ true true true true =
      (if true then Block.air SpriteKind.JungleRedGrass
       else Block.air SpriteKind.JungleFern) ∧
    classifyCell ⟨144, 31, 31⟩ true true true true =
      Block.air SpriteKind.DungeonChest4 ∧
    classifyCell ⟨194, 231, 147⟩ true true true true =
      Block.air SpriteKind.FireBowlGround ∧
    classifyCell ⟨7, 8, 9⟩ true true true true =
      (if true then Block.air SpriteKind.Empty
       else if true then Block.solid BlockKind.GlowingRock ⟨7, 8, 9⟩
       else if true then Block.water SpriteKind.Empty
       else Block.solid BlockKind.Misc ⟨7, 8, 9⟩)) :=
  classify_match_priority true true true true ⟨7, 8, 9⟩ (by decide)

/-- C1 (code bug): `build_place` reads only `pieces.get(0)`, so the
    two-piece spec [("a", 0), ("b", 0)] yields exactly the one-piece
    result of ["a"]: the only registered box is the one of piece "a", and
    the box piece "b" would contribute is absent — the claim that every
    (model_name, offset) pair of the list is placed fails.  The TODO and
    the commented-out unionizer loop in the source mark the missing
    combination step as intended. -/
theorem buildPlace_ignores_second_piece :
    buildPlace loadEx ⟨[⟨"a", V3.zero⟩, ⟨"b", V3.zero⟩]⟩ =
      buildPlace loadEx ⟨[⟨"a", V3.zero⟩]⟩ ∧
    (buildPlace loadEx ⟨[⟨"a", V3.zero⟩, ⟨"b", V3.zero⟩]⟩).map (fun r => r.1.2) =
      some [⟨⟨-1, -1, -1⟩, ⟨1, 1, 1⟩⟩] ∧
    (newFrom (loadEx "b") V3.zero).map (fun r => r.2) =
      some [⟨⟨-20, -20, -20⟩, ⟨20, 20, 20⟩⟩] := by decide

/-- C2 counterexample: a run rendering a 10-cubed model and then a
    4-cubed model at the same translation ends with both boxes in the
    Bounding Region Set, the second a strict subset of the first —
    nothing is merged or collapsed. -/
theorem newFrom_keeps_contained_box :
    (newFrom dataC V3.zero).map (fun r => r.2) =
      some [⟨⟨-5, -5, -5⟩, ⟨5, 5, 5⟩⟩, ⟨⟨-2, -2, -2⟩, ⟨2, 2, 2⟩⟩] ∧
    Aabb3.containsBox ⟨⟨-5, -5, -5⟩, ⟨5, 5, 5⟩⟩ ⟨⟨-2, -2, -2⟩, ⟨2, 2, 2⟩⟩ ∧
    (⟨⟨-2, -2, -2⟩, ⟨2, 2, 2⟩⟩ : Aabb3) ≠ ⟨⟨-5, -5, -5⟩, ⟨5, 5, 5⟩⟩ := by decide

/-- C2 (corrected): `render_model` appends one box per rendered model to
    the region list unconditionally: a new box fully contained in (or
    containing) an existing entry is kept as its own entry, never
    collapsed into one. -/
theorem renderModel_appends_box (palette : List Rgb) (model : Model) (g : Grid)
    (aabbs : List Aabb3) (rot : M3) (trans : V3) (g1 : Grid) (aabbs1 : List Aabb3)
    (h : renderModel palette model g aabbs rot trans = some (g1, aabbs1)) :
    aabbs1 = aabbs ++ [⟨rmPos rot trans model.size,
      rmPos rot trans model.size + rmSize rot model.size⟩] :=
  renderModel_aabbs palette model g aabbs rot trans g1 aabbs1 h

theorem renderModel_appends_box_witness :
    ([⟨⟨-1, -1, -1⟩, ⟨1, 1, 1⟩⟩] : List Aabb3) =
      [] ++ [⟨rmPos M3.id V3.zero ⟨2, 2, 2⟩,
        rmPos M3.id V3.zero ⟨2, 2, 2⟩ + rmSize M3.id ⟨2, 2, 2⟩⟩] :=
  renderModel_appends_box [] ⟨⟨2, 2, 2⟩, []⟩ Grid.empty [] M3.id V3.zero gridA
    [⟨⟨-1, -1, -1⟩, ⟨1, 1, 1⟩⟩] (by decide)

/-- C3 counterexample: with the identity rotation, a 2x2x2 model and zero
    translation, the registered box is [(-1,-1,-1), (1,1,1)], whereas
    `pos + size - 1` is (0,0,0): the inclusive max corner the claim
    demands differs from the one the code registers (the code registers
    `pos + size`). -/
theorem renderModel_box_max_off_by_one :
    (renderModel [] ⟨⟨2, 2, 2⟩, []⟩ Grid.empty [] M3.id V3.zero).map (fun r => r.2) =
      some [⟨⟨-1, -1, -1⟩, ⟨1, 1, 1⟩⟩] ∧
    rmPos M3.id V3.zero ⟨2, 2, 2⟩ = ⟨-1, -1, -1⟩ ∧
    rmPos M3.id V3.zero ⟨2, 2, 2⟩ + (rmSize M3.id ⟨2, 2, 2⟩).map (fun e => e - 1) =
      ⟨0, 0, 0⟩ ∧
    ((⟨1, 1, 1⟩ : V3) ≠ ⟨0, 0, 0⟩) := by decide

/-- C3 (corrected): the box registered by a successful `render_model` run
    has inclusive min corner `pos` and inclusive max corner `pos + size`
    (one unit beyond the claimed `pos + size - 1` on every axis): every
    cell a voxel of the model can occupy lies between `pos` and
    `pos + size - 1`, so the registered box covers them all, with one
    extra layer of cells per axis. -/
theorem renderModel_box_bounds (palette : List Rgb) (model : Model) (g : Grid)
    (aabbs : List Aabb3) (rot : M3) (trans : V3) (g1 : Grid) (aabbs1 : List Aabb3)
    (hrot : rot.isSignedPerm = true)
    (hvox : ∀ v ∈ model.voxels, inBoundsVoxel v model.size)
    (h : renderModel palette model g aabbs rot trans = some (g1, aabbs1)) :
    aabbs1 = aabbs ++ [⟨rmPos rot trans model.size,
      rmPos rot trans model.size + rmSize rot model.size⟩] ∧
    ∀ v ∈ model.voxels,
      V3.le (rmPos rot trans model.size) (voxelPos rot trans model.size v) ∧
        V3.le (voxelPos rot trans model.size v)
          (rmPos rot trans model.size + (rmSize rot model.size).map (fun e => e - 1)) :=
  ⟨renderModel_aabbs palette model g aabbs rot trans g1 aabbs1 h,
   fun v hv => voxel_world_bound rot trans model.size v hrot (hvox v hv)⟩

theorem renderModel_box_bounds_witness :
    ([⟨⟨-1, -1, -1⟩, ⟨1, 1, 1⟩⟩] : List Aabb3) =
      [] ++ [⟨rmPos M3.id V3.zero modelA.size,
        rmPos M3.id V3.zero modelA.size + rmSize M3.id modelA.size⟩] ∧
    ∀ v ∈ modelA.voxels,
      V3.le (rmPos M3.id V3.zero modelA.size) (voxelPos M3.id V3.zero modelA.size v) ∧
        V3.le (voxelPos M3.id V3.zero modelA.size v)
          (rmPos M3.id V3.zero modelA.size +
            (rmSize M3.id modelA.size).map (fun e => e - 1)) :=
  renderModel_box_bounds palA modelA Grid.empty [] M3.id V3.zero
    ⟨gridA.keys, [(⟨-1, -1, -1⟩, Cell.new ⟨4, 119, 191⟩ false false false)]⟩
    [⟨⟨-1, -1, -1⟩, ⟨1, 1, 1⟩⟩] (by decide) (by decide) (by decide)

/-- C5 (confirmed): when every voxel lies within the declared model size
    and the accumulated rotation is a signed axis permutation, the chunk
    key of every per-voxel write position is among the keys inserted by
    the preceding chunk-range loop over the box, so `set` always finds its
    chunk and the unwrap never fires: `render_model` returns a value. -/
theorem renderModel_write_safe (palette : List Rgb) (model : Model) (g : Grid)
    (aabbs : List Aabb3) (rot : M3) (trans : V3)
    (hrot : rot.isSignedPerm = true)
    (hvox : ∀ v ∈ model.voxels, inBoundsVoxel v model.size) :
    (∀ v ∈ model.voxels,
      posKey (voxelPos rot trans model.size v) ∈
        (g.ensureAll (keysInBox (rmMinKey rot trans model.size)
          (rmMaxKey rot trans model.size))).keys) ∧
    (renderModel palette model g aabbs rot trans).isSome = true := by
  have hmem : ∀ v ∈ model.voxels,
      posKey (voxelPos rot trans model.size v) ∈
        (g.ensureAll (keysInBox (rmMinKey rot trans model.size)
          (rmMaxKey rot trans model.size))).keys := by
    intro v hv
    obtain ⟨hlo, hhi⟩ := voxel_world_bound rot trans model.size v hrot (hvox v hv)
    exact Grid.mem_ensureAll g _ _
      (mem_keysInBox _ _ _ (posKey_mono _ _ hlo) (posKey_mono _ _ hhi))
  refine ⟨hmem, ?_⟩
  have hws := writeVoxels_isSome palette rot (rmOffset rot model.size)
      (rmPos rot trans model.size) model.voxels
      (g.ensureAll (keysInBox (rmMinKey rot trans model.size)
        (rmMaxKey rot trans model.size))) hmem
  unfold renderModel
  cases hw : writeVoxels palette rot (rmOffset rot model.size) (rmPos rot trans model.size)
      model.voxels (g.ensureAll (keysInBox (rmMinKey rot trans model.size)
        (rmMaxKey rot trans model.size))) with
  | none =>
    rw [hw] at hws
    simp at hws
  | some g2 => rfl

theorem renderModel_write_safe_witness :
    (∀ v ∈ modelA.voxels,
      posKey (voxelPos M3.id V3.zero modelA.size v) ∈
        (Grid.empty.ensureAll (keysInBox (rmMinKey M3.id V3.zero modelA.size)
          (rmMaxKey M3.id V3.zero modelA.size))).keys) ∧
    (renderModel palA modelA Grid.empty [] M3.id V3.zero).isSome = true :=
  renderModel_write_safe palA modelA Grid.empty [] M3.id V3.zero (by decide) (by decide)

/-- C6 (confirmed): at a Transform node with accumulated state
    (rot, trans), the state handed to the single child is
    (rot * r_local, trans + rot * t_local), where the local values come
    from the first animation frame only and default to the zero vector and
    identity matrix when the attribute is absent, unparsable, or an
    invalid encoding. -/
theorem insertScene_transform_state (fuel : Nat) (data : DotVoxData) (palette : List Rgb)
    (idx : Nat) (rot : M3) (trans : V3) (g : Grid) (aabbs : List Aabb3)
    (frames : List Frame) (child : Nat) (r : M3)
    (hnode : data.scene.get? idx = some (SceneNode.transform frames child))
    (hr : localRot frames = some r) :
    insertScene (fuel + 1) data palette idx rot trans g aabbs =
      insertScene fuel data palette child (rot.mul r)
        (trans + rot.mulVec (localTrans frames)) g aabbs := by
  cases frames with
  | nil =>
    have hid : r = M3.id := by
      have h2 : (some M3.id : Option M3) = some r := hr
      injection h2 with h3
      exact h3.symm
    subst hid
    rw [M3.mul_id]
    have ht : trans + rot.mulVec (localTrans []) = trans := by
      show trans + rot.mulVec V3.zero = trans
      rw [M3.mulVec_zero, V3.add_zero_right]
    rw [ht]
    simp only [insertScene, hnode, List.head?_nil]
  | cons f rest =>
    have hr2 : frameRotM f = some r := hr
    have hloc : localTrans (f :: rest) = frameTrans f := rfl
    rw [hloc]
    simp only [insertScene, hnode, List.head?_cons, hr2]

theorem insertScene_transform_state_witness :
    insertScene 2 dataT [] 0 M3.id V3.zero Grid.empty [] =
      insertScene 1 dataT [] 1 (M3.id.mul M3.id)
        (V3.zero + M3.id.mulVec (localTrans [⟨none, none⟩])) Grid.empty [] :=
  insertScene_transform_state 1 dataT [] 0 M3.id V3.zero Grid.empty []
    [⟨none, none⟩] 1 M3.id rfl rfl

/-- C10 (confirmed): a traversal step whose scene-node index has no entry
    in the node table aborts the assembly (the `unwrap` on
    `scene.get(..)`), whatever fuel remains, while a Shape node model id
    missing from the model table is silently skipped, the loop continuing
    with the remaining references. -/
theorem insertScene_missing_node_aborts (fuel : Nat) (data : DotVoxData)
    (palette : List Rgb) (idx : Nat) (rot : M3) (trans : V3) (g : Grid)
    (aabbs : List Aabb3) (mid : Nat) (rest : List Nat) :
    (data.scene.get? idx = none →
      insertScene (fuel + 1) data palette idx rot trans g aabbs = none) ∧
    (data.models.get? mid = none →
      renderModels palette data rot trans (mid :: rest) g aabbs =
        renderModels palette data rot trans rest g aabbs) := by
  constructor
  · intro h
    simp only [insertScene, h]
  · intro h
    simp only [renderModels, h]

theorem insertScene_missing_node_aborts_witness :
    insertScene 1 ⟨[], [], []⟩ [] 0 M3.id V3.zero Grid.empty [] = none ∧
    renderModels [] ⟨[], [], []⟩ M3.id V3.zero [0] Grid.empty [] =
      renderModels [] ⟨[], [], []⟩ M3.id V3.zero [] Grid.empty [] :=
  ⟨(insertScene_missing_node_aborts 0 ⟨[], [], []⟩ [] 0 M3.id V3.zero Grid.empty [] 0 []).1 rfl,
   (insertScene_missing_node_aborts 0 ⟨[], [], []⟩ [] 0 M3.id V3.zero Grid.empty [] 0 []).2 rfl⟩

end VoxPlacer
